import Mathlib

/-!
# Thermal-monitoring engine: shallow embedding and verification

This file embeds the telemetry processing and alerting engine of the
thermal-monitoring repository in Lean 4 and proves (or refutes) the frozen
specification claims about it.

The embedded code comes from two source files:

* `thermal-monitoring/ThermalIsolationTracker.cpp` (+ its header): per-sensor
  state, rate-of-change, bounded histories, threshold checks, alert
  throttling, offline sweeping, and statistics queries.
* `hardware-emulation/rpi4-gateways/RPi4_DataProcessor.cpp` (+ gateway
  header): the bounded ingestion queue, per-sensor statistics, validity
  handling, edge trend analytics (least-squares regression) and windowed
  aggregation.

Modelling conventions (stated once here, referenced from the definitions):

* C++ `float` values (temperatures, humidities, rates, …) are modelled as
  `ℚ`; no claim under consideration depends on floating-point rounding.
* `std::chrono::steady_clock::time_point` is modelled as a `ℕ` count of
  seconds, with `0` playing the role of the default-constructed epoch
  `time_point{}`.  `duration_cast<minutes>` becomes truncating division by
  60.  The clock is steady, so `now` is never behind a stored timestamp in
  a real run; `ℕ` subtraction (which truncates at zero) agrees with the C++
  negative-duration behaviour at every use site (each is guarded by a
  `> 0` / `< bound` comparison that negative and zero counts fail alike).
* `std::unordered_map` is modelled as an association list with
  single-binding update (`updKV`); C++ `operator[]` default-insertion is
  `(lookupKV … ).getD default`.  Iteration order of `unordered_map` is
  unspecified in C++; list order stands in for it, and no theorem below
  depends on it.
* `std::deque`/`std::vector` histories are Lean lists; `push_back` appends
  at the tail, `pop_front`/`erase(begin())` drops the head.
* String formatting of alert/MQTT/WebSocket messages (pure presentation on
  top of the numeric fields proved about here) is not modelled; an `Alert`
  carries the numeric/enumerated fields the formatter prints.
* Mutex acquisition and the worker/monitor threads are concurrency plumbing
  around the sequential bodies modelled here; each locked body is embedded
  as one atomic state transition.
-/

namespace ThermalSpec

/-! ## Data model and operations (definitions) -/

/-- Lookup in an association list; model of `unordered_map::find`. -/
def lookupKV {κ ν : Type} [DecidableEq κ] (k : κ) : List (κ × ν) → Option ν
  | [] => none
  | (k', v) :: rest => if k = k' then some v else lookupKV k rest

/-- Insert-or-replace in an association list; model of assignment through
`unordered_map::operator[]`. -/
def updKV {κ ν : Type} [DecidableEq κ] (k : κ) (v : ν) : List (κ × ν) → List (κ × ν)
  | [] => [(k, v)]
  | (k', v') :: rest => if k = k' then (k, v) :: rest else (k', v') :: updKV k v rest

/-- Append at the back, then evict the front element if the capacity is
exceeded: `pushEvict cap h x` models `push_back(x)` followed by
`if (size() > cap) pop_front()` — the history-insertion idiom used for the
tracker's temperature/humidity deques and (with `erase(begin())`) the data
processor's per-sensor packet history. -/
def pushEvict {α : Type} (cap : ℕ) (h : List α) (x : α) : List α :=
  if cap < (h ++ [x]).length then (h ++ [x]).tail else h ++ [x]

/-- The last `n` elements of a list, in order. -/
def lastN {α : Type} (n : ℕ) (l : List α) : List α :=
  l.drop (l.length - n)

/-- `enum class AlertType` from `ThermalIsolationTracker.h`. -/
inductive AlertType : Type where
  | TEMP_TOO_LOW
  | TEMP_TOO_HIGH
  | HUMIDITY_TOO_HIGH
  | TEMP_RISING_FAST
  | TEMP_FALLING_FAST
  | SENSOR_OFFLINE
deriving DecidableEq

/-- `struct ThermalConfig`, with the source's default member values.
Timestamps are seconds; `sensor_timeout_minutes`/`alert_throttle_minutes`
stay `int`-valued (`ℤ`) as in the source. -/
structure ThermalConfig : Type where
  temp_min : ℚ := 18
  temp_max : ℚ := 28
  humidity_max : ℚ := 60
  temp_rate_limit : ℚ := 2
  sensor_timeout_minutes : ℤ := 10
  alert_throttle_minutes : ℤ := 5
  history_size : ℕ := 100
  max_alerts_history : ℕ := 1000
  sensor_locations : List (String × String) := []

/-- `struct SensorData`.  `last_update = 0` models the default-constructed
`steady_clock::time_point{}`.  The histories hold `(value, timestamp)`
pairs as `struct TimestampedReading` does. -/
structure SensorData : Type where
  sensor_id : String := ""
  temperature : ℚ := 0
  humidity : ℚ := 0
  location : String := ""
  last_update : ℕ := 0
  is_active : Bool := false
  temp_rate : ℚ := 0
  temperature_history : List (ℚ × ℕ) := []
  humidity_history : List (ℚ × ℕ) := []
deriving DecidableEq

/-- `struct Alert`.  The `message` string is pure presentation
(`format_alert_message` renders the numeric fields carried here) and is
not modelled. -/
structure Alert : Type where
  sensor_id : String
  alert_type : AlertType
  location : String
  timestamp : ℕ
  temperature : ℚ
  humidity : ℚ
  temp_rate : ℚ
deriving DecidableEq

/-- `struct SensorStats`, zero-initialized as by `SensorStats stats = {}`. -/
structure SensorStats : Type where
  sensor_id : String := ""
  location : String := ""
  current_temp : ℚ := 0
  current_humidity : ℚ := 0
  avg_temp : ℚ := 0
  min_temp : ℚ := 0
  max_temp : ℚ := 0
  uptime_minutes : ℤ := 0
deriving DecidableEq

/-- The mutable fields of `ThermalIsolationTracker` that the claims are
about: the sensor map, the recent-alert deque and the throttle map (the
latter flattened to `(sensor_id, alert_type)` keys; the nested
`unordered_map` in the source adds empty inner maps on lookup, which is
unobservable in every query). -/
structure TrackerState : Type where
  sensors : List (String × SensorData) := []
  recent_alerts : List Alert := []
  alert_throttle : List ((String × AlertType) × ℕ) := []
deriving DecidableEq

/-- The throttle-map component type. -/
abbrev ThrottleMap : Type := List ((String × AlertType) × ℕ)

/-- Whole minutes between two second-valued timestamps:
`duration_cast<minutes>`. -/
def minutesBetween (earlier later : ℕ) : ℕ := (later - earlier) / 60

/-- `ThermalIsolationTracker::get_sensor_location`. -/
def get_sensor_location (cfg : ThermalConfig) (sensor_id : String) : String :=
  match lookupKV sensor_id cfg.sensor_locations with
  | some loc => loc
  | none => "Unknown"

/-- `ThermalIsolationTracker::should_throttle_alert`: absent key means not
throttled; otherwise throttle while strictly fewer than
`alert_throttle_minutes` whole minutes have passed since the last fire. -/
def should_throttle_alert (cfg : ThermalConfig) (throttle : ThrottleMap)
    (sensor_id : String) (t : AlertType) (now : ℕ) : Bool :=
  match lookupKV (sensor_id, t) throttle with
  | none => false
  | some last => ((minutesBetween last now : ℕ) : ℤ) < cfg.alert_throttle_minutes

/-- `ThermalIsolationTracker::generate_alert`: throttle check, alert
construction, recent-alert deque insertion with eviction, throttle-map
check-and-set, and callback emission (the returned alert list).  The two
`steady_clock::now()` reads inside the locked section are modelled as the
single instant `now`. -/
def generate_alert (cfg : ThermalConfig) (sensor_id : String) (t : AlertType)
    (s : SensorData) (recent_alerts : List Alert) (throttle : ThrottleMap)
    (now : ℕ) : List Alert × ThrottleMap × List Alert :=
  if should_throttle_alert cfg throttle sensor_id t now then
    (recent_alerts, throttle, [])
  else
    let alert : Alert :=
      { sensor_id := sensor_id, alert_type := t, location := s.location,
        timestamp := now, temperature := s.temperature,
        humidity := s.humidity, temp_rate := s.temp_rate }
    (pushEvict cfg.max_alerts_history recent_alerts alert,
     updKV (sensor_id, t) now throttle, [alert])

/-- The candidate list built by `ThermalIsolationTracker::check_thresholds`
(the local `std::vector<AlertType> alerts`), in source order: the
`temp_min`/`temp_max` else-if chain, the humidity check, the rate checks,
and the staleness check. -/
def threshold_alerts (cfg : ThermalConfig) (s : SensorData) (now : ℕ) :
    List AlertType :=
  (if s.temperature < cfg.temp_min then [AlertType.TEMP_TOO_LOW]
   else if s.temperature > cfg.temp_max then [AlertType.TEMP_TOO_HIGH]
   else [])
  ++ (if s.humidity > cfg.humidity_max then [AlertType.HUMIDITY_TOO_HIGH] else [])
  ++ (if |s.temp_rate| > cfg.temp_rate_limit then
        (if s.temp_rate > 0 then [AlertType.TEMP_RISING_FAST]
         else [AlertType.TEMP_FALLING_FAST])
      else [])
  ++ (if ((minutesBetween s.last_update now : ℕ) : ℤ) > cfg.sensor_timeout_minutes
      then [AlertType.SENSOR_OFFLINE] else [])

/-- The `for (AlertType alert : alerts) generate_alert(...)` loop at the
end of `check_thresholds`, threading the alert deque and throttle map and
collecting the emitted alerts. -/
def run_alerts (cfg : ThermalConfig) (sensor_id : String) (s : SensorData)
    (now : ℕ) : List AlertType → List Alert → ThrottleMap →
    List Alert × ThrottleMap × List Alert
  | [], ra, th => (ra, th, [])
  | t :: ts, ra, th =>
    let out := generate_alert cfg sensor_id t s ra th now
    let rest := run_alerts cfg sensor_id s now ts out.1 out.2.1
    (rest.1, rest.2.1, out.2.2 ++ rest.2.2)

/-- `ThermalIsolationTracker::check_thresholds`. -/
def check_thresholds (cfg : ThermalConfig) (sensor_id : String)
    (s : SensorData) (ra : List Alert) (th : ThrottleMap) (now : ℕ) :
    List Alert × ThrottleMap × List Alert :=
  run_alerts cfg sensor_id s now (threshold_alerts cfg s now) ra th

/-- `ThermalIsolationTracker::process_sensor_data`: find-or-create the
sensor (`sensors_[sensor_id]`), update current values / location /
`last_update` / active flag, compute the rate of change when a previous
update exists and at least one whole minute has elapsed, append to both
histories with FIFO eviction, then run the threshold checks.  Returns the
new state and the alerts emitted to the callback. -/
def process_sensor_data (cfg : ThermalConfig) (st : TrackerState)
    (sensor_id : String) (temperature humidity : ℚ) (location : String)
    (now : ℕ) : TrackerState × List Alert :=
  let sensor0 := (lookupKV sensor_id st.sensors).getD {}
  let prev_temp := sensor0.temperature
  let prev_time := sensor0.last_update
  let sensor1 : SensorData :=
    { sensor0 with
      sensor_id := sensor_id, temperature := temperature,
      humidity := humidity,
      location := if location = "" then get_sensor_location cfg sensor_id
                  else location,
      last_update := now, is_active := true }
  let sensor2 :=
    if prev_time ≠ 0 ∧ 0 < minutesBetween prev_time now then
      { sensor1 with
        temp_rate := (temperature - prev_temp)
          / ((minutesBetween prev_time now : ℕ) : ℚ) }
    else sensor1
  let sensor3 :=
    { sensor2 with
      temperature_history :=
        pushEvict cfg.history_size sensor2.temperature_history (temperature, now),
      humidity_history :=
        pushEvict cfg.history_size sensor2.humidity_history (humidity, now) }
  let out := check_thresholds cfg sensor_id sensor3 st.recent_alerts
    st.alert_throttle now
  ({ sensors := updKV sensor_id sensor3 st.sensors,
     recent_alerts := out.1, alert_throttle := out.2.1 }, out.2.2)

/-- The loop body of `ThermalIsolationTracker::check_offline_sensors`,
walking the sensor map: every still-active sensor whose last update is
more than `sensor_timeout_minutes` whole minutes old is marked inactive
and a `SENSOR_OFFLINE` alert is generated for it (throttled as usual). -/
def sweep_sensors (cfg : ThermalConfig) (now : ℕ) :
    List (String × SensorData) → List Alert → ThrottleMap →
    List (String × SensorData) × List Alert × ThrottleMap × List Alert
  | [], ra, th => ([], ra, th, [])
  | (sid, s) :: rest, ra, th =>
    if s.is_active
        ∧ ((minutesBetween s.last_update now : ℕ) : ℤ) > cfg.sensor_timeout_minutes then
      let s' := { s with is_active := false }
      let out := generate_alert cfg sid AlertType.SENSOR_OFFLINE s' ra th now
      let tl := sweep_sensors cfg now rest out.1 out.2.1
      ((sid, s') :: tl.1, tl.2.1, tl.2.2.1, out.2.2 ++ tl.2.2.2)
    else
      let tl := sweep_sensors cfg now rest ra th
      ((sid, s) :: tl.1, tl.2.1, tl.2.2.1, tl.2.2.2)

/-- `ThermalIsolationTracker::check_offline_sensors`. -/
def check_offline_sensors (cfg : ThermalConfig) (st : TrackerState)
    (now : ℕ) : TrackerState × List Alert :=
  let out := sweep_sensors cfg now st.sensors st.recent_alerts st.alert_throttle
  ({ sensors := out.1, recent_alerts := out.2.1, alert_throttle := out.2.2.1 },
   out.2.2.2)

/-- `ThermalIsolationTracker::get_sensor_stats` (a `const` query; the
unchanged state is returned alongside the result).  A missing sensor id
returns the zero-initialized `SensorStats stats = {}` unmodified. -/
def get_sensor_stats (st : TrackerState) (sensor_id : String) (now : ℕ) :
    SensorStats × TrackerState :=
  match lookupKV sensor_id st.sensors with
  | none => ({}, st)
  | some sensor =>
    let base : SensorStats :=
      { sensor_id := sensor_id, location := sensor.location,
        current_temp := sensor.temperature,
        current_humidity := sensor.humidity }
    let temps := sensor.temperature_history.map Prod.fst
    let withHist :=
      match temps with
      | [] => base
      | t0 :: _ =>
        { base with
          avg_temp := temps.sum / (temps.length : ℚ),
          min_temp := temps.foldl min t0,
          max_temp := temps.foldl max t0 }
    (if sensor.last_update ≠ 0 then
       { withHist with
         uptime_minutes := ((minutesBetween sensor.last_update now : ℕ) : ℤ) }
     else withHist, st)

/-- The alert record `generate_alert` builds when the throttle admits the
candidate. -/
def mkAlert (sensor_id : String) (t : AlertType) (s : SensorData) (now : ℕ) :
    Alert :=
  { sensor_id := sensor_id, alert_type := t, location := s.location,
    timestamp := now, temperature := s.temperature, humidity := s.humidity,
    temp_rate := s.temp_rate }

/-- One call to `process_sensor_data`, as data: the arguments of a
submitted reading. -/
structure Reading : Type where
  sensor_id : String
  temperature : ℚ
  humidity : ℚ
  location : String
  now : ℕ

/-- Apply a sequence of readings in receipt order. -/
def applyReadings (cfg : ThermalConfig) (rs : List Reading)
    (st : TrackerState) : TrackerState :=
  rs.foldl (fun acc r =>
    (process_sensor_data cfg acc r.sensor_id r.temperature r.humidity
      r.location r.now).1) st

/-- The temperature history a state holds for a sensor (empty when the
sensor is unknown, as for the default-constructed `SensorData`). -/
def hist_temps (st : TrackerState) (id : String) : List (ℚ × ℕ) :=
  ((lookupKV id st.sensors).getD {}).temperature_history

/-- The humidity history a state holds for a sensor. -/
def hist_hums (st : TrackerState) (id : String) : List (ℚ × ℕ) :=
  ((lookupKV id st.sensors).getD {}).humidity_history

/-- The `(value, timestamp)` pairs that the readings for sensor `id`
would append to the temperature history, in application order. -/
def tempsFor (id : String) (rs : List Reading) : List (ℚ × ℕ) :=
  (rs.filter (fun r => r.sensor_id == id)).map (fun r => (r.temperature, r.now))

/-- The `(value, timestamp)` pairs appended to the humidity history. -/
def humsFor (id : String) (rs : List Reading) : List (ℚ × ℕ) :=
  (rs.filter (fun r => r.sensor_id == id)).map (fun r => (r.humidity, r.now))

/-- `enum class CommInterface`. -/
inductive CommInterface : Type where
  | UART_INTERFACE
  | SPI_INTERFACE
  | I2C_INTERFACE
  | USB_SERIAL
  | GPIO_CUSTOM
deriving DecidableEq

/-- `struct SensorDataPacket`.  The `uint8_t` status byte and `uint16_t`
ADC words are `ℕ`; bit masks become `Nat.testBit`. -/
structure SensorDataPacket : Type where
  sensor_id : String := ""
  location : String := ""
  temperature_celsius : ℚ := 0
  humidity_percent : ℚ := 0
  pressure_hpa : ℚ := 0
  supply_voltage : ℚ := 0
  sensor_status : ℕ := 0
  raw_temp_adc : ℕ := 0
  raw_humidity_adc : ℕ := 0
  timestamp : ℕ := 0
  interface_used : CommInterface := CommInterface.UART_INTERFACE
  is_valid : Bool := true
  signal_strength : ℚ := 0
  packet_sequence : ℕ := 0
  data_confidence : ℚ := 0
deriving DecidableEq

/-- `struct SensorStatistics`, zero-initialized as by value-initialization
(`sensor_stats_[id]` on first access, `SensorStatistics empty_stats = {}`). -/
structure SensorStatistics : Type where
  sensor_id : String := ""
  total_packets : ℕ := 0
  valid_packets : ℕ := 0
  error_packets : ℕ := 0
  packet_loss_rate : ℚ := 0
  avg_temperature : ℚ := 0
  avg_humidity : ℚ := 0
  min_temperature : ℚ := 0
  max_temperature : ℚ := 0
  temperature_stddev : ℚ := 0
  last_update : ℕ := 0
  first_seen : ℕ := 0
deriving DecidableEq

/-- The `std::map<std::string, float> metrics` of
`struct EdgeProcessingResult` always receives exactly the four keys
written by `perform_edge_analytics`; they are embedded as the four
`temperature_…`/`humidity_…` fields. -/
structure EdgeProcessingResult : Type where
  sensor_id : String := ""
  analysis_type : String := ""
  temperature_trend_slope : ℚ := 0
  temperature_trend_intercept : ℚ := 0
  temperature_current : ℚ := 0
  humidity_current : ℚ := 0
  alerts : List String := []
  recommendations : List String := []
  confidence_score : ℚ := 0
  processed_at : ℕ := 0
deriving DecidableEq

/-- The fields of `struct RPi4GatewayConfig` the data processor reads,
with the source's defaults.  `int`-typed sizes/durations that the code
only ever uses as non-negative counts are `ℕ`. -/
structure RPi4GatewayConfig : Type where
  gateway_id : String := ""
  mqtt_base_topic : String := "gateway"
  aggregation_window_seconds : ℕ := 60
  max_sensor_history : ℕ := 1000
  enable_edge_analytics : Bool := true
  temp_alert_low : ℚ := 10
  temp_alert_high : ℚ := 35
  humidity_alert_high : ℚ := 80
  max_queue_size : ℕ := 10000
  worker_thread_count : ℕ := 4

/-- The mutable fields of `DataProcessor`: the running flag, the bounded
processing queue, the per-sensor history and statistics maps, and the
edge-analytics result log.  (Worker threads, mutexes and the condition
variable are concurrency plumbing around these.) -/
structure DPState : Type where
  running : Bool := true
  processing_queue : List SensorDataPacket := []
  sensor_history : List (String × List SensorDataPacket) := []
  sensor_stats : List (String × SensorStatistics) := []
  edge_results : List EdgeProcessingResult := []
deriving DecidableEq

/-- `DataProcessor::process_packet` (the queue submission path): when not
running the packet is ignored; when the queue already holds
`max_queue_size` items the packet is dropped with only a log line; else it
is enqueued at the back.  No other field of the processor is touched. -/
def process_packet (cfg : RPi4GatewayConfig) (st : DPState)
    (p : SensorDataPacket) : DPState :=
  if st.running = false then st
  else if cfg.max_queue_size ≤ st.processing_queue.length then st
  else { st with processing_queue := st.processing_queue ++ [p] }

/-- `DataProcessor::update_statistics`, acting on the entry
`sensor_stats_[packet.sensor_id]` (first access zero-initializes, and the
`sensor_id.empty()` test re-initializes the counters and seeds min/max and
`first_seen`).  Mirrors the source's assignment order; in particular the
simplified stddev uses the freshly updated average. -/
def update_statistics (p : SensorDataPacket) (stats0 : SensorStatistics) :
    SensorStatistics :=
  let stats1 :=
    if stats0.sensor_id = "" then
      { stats0 with
        sensor_id := p.sensor_id, total_packets := 0, valid_packets := 0,
        error_packets := 0, packet_loss_rate := 0,
        min_temperature := p.temperature_celsius,
        max_temperature := p.temperature_celsius,
        first_seen := p.timestamp }
    else stats0
  let stats2 := { stats1 with total_packets := stats1.total_packets + 1 }
  let stats3 :=
    if p.is_valid then { stats2 with valid_packets := stats2.valid_packets + 1 }
    else { stats2 with error_packets := stats2.error_packets + 1 }
  let stats4 := { stats3 with
    packet_loss_rate := (stats3.error_packets : ℚ) / (stats3.total_packets : ℚ) }
  let stats5 :=
    if p.is_valid then
      let s1 := { stats4 with
        min_temperature := min stats4.min_temperature p.temperature_celsius,
        max_temperature := max stats4.max_temperature p.temperature_celsius }
      let s2 := { s1 with
        avg_temperature := (s1.avg_temperature * ((s1.valid_packets : ℚ) - 1)
          + p.temperature_celsius) / (s1.valid_packets : ℚ) }
      let s3 := { s2 with
        avg_humidity := (s2.avg_humidity * ((s2.valid_packets : ℚ) - 1)
          + p.humidity_percent) / (s2.valid_packets : ℚ) }
      { s3 with temperature_stddev := |p.temperature_celsius - s3.avg_temperature| }
    else stats4
  { stats5 with last_update := p.timestamp }

/-- The six distinguishable alert messages `DataProcessor::check_alerts`
can build (each carries the formatted value in the source; the format
strings are presentation and are represented by the kind). -/
inductive DPAlertKind : Type where
  | TEMP_LOW
  | TEMP_HIGH
  | HUM_HIGH
  | LOW_VOLTAGE
  | SENSOR_FAULT
  | COMM_FAULT
deriving DecidableEq

/-- `DataProcessor::check_alerts`: the list of alerts built (and then sent
to the alert callback) for one packet, in source order. -/
def check_alerts (cfg : RPi4GatewayConfig) (p : SensorDataPacket) :
    List DPAlertKind :=
  (if p.temperature_celsius < cfg.temp_alert_low then [DPAlertKind.TEMP_LOW] else [])
  ++ (if p.temperature_celsius > cfg.temp_alert_high then [DPAlertKind.TEMP_HIGH] else [])
  ++ (if p.humidity_percent > cfg.humidity_alert_high then [DPAlertKind.HUM_HIGH] else [])
  ++ (if p.supply_voltage < 3 then [DPAlertKind.LOW_VOLTAGE] else [])
  ++ (if p.sensor_status.testBit 0 then [DPAlertKind.SENSOR_FAULT] else [])
  ++ (if p.sensor_status.testBit 1 then [DPAlertKind.COMM_FAULT] else [])

/-- The `sum_xy` accumulation loop of `perform_edge_analytics`
(`for i: sum_xy += x * y` over sample index `x = i`). -/
def sum_xy (temps : List ℚ) : ℚ :=
  ∑ i ∈ Finset.range temps.length, (i : ℚ) * temps.getD i 0

/-- The `sum_x2` accumulation loop (`sum_x2 += x * x`). -/
def sum_x2 (temps : List ℚ) : ℚ :=
  ∑ i ∈ Finset.range temps.length, (i : ℚ) * (i : ℚ)

/-- The regression slope of `perform_edge_analytics`:
`(n·Σxy − Σx·Σy) / (n·Σx² − (Σx)²)` with `sum_x` computed by the closed
formula `n (n−1) / 2` as in the source. -/
def trend_slope (temps : List ℚ) : ℚ :=
  ((temps.length : ℚ) * sum_xy temps
      - (temps.length : ℚ) * ((temps.length : ℚ) - 1) / 2 * temps.sum)
    / ((temps.length : ℚ) * sum_x2 temps
      - (temps.length : ℚ) * ((temps.length : ℚ) - 1) / 2
        * ((temps.length : ℚ) * ((temps.length : ℚ) - 1) / 2))

/-- The regression intercept `(Σy − slope·Σx) / n`. -/
def trend_intercept (temps : List ℚ) : ℚ :=
  (temps.sum - trend_slope temps
      * ((temps.length : ℚ) * ((temps.length : ℚ) - 1) / 2))
    / (temps.length : ℚ)

/-- `DataProcessor::perform_edge_analytics` on the (already updated)
history of the packet's sensor: no result below 5 samples, otherwise the
least-squares trend of temperature against sample index together with the
advisory notes and the confidence score. -/
def perform_edge_analytics (history : List SensorDataPacket)
    (p : SensorDataPacket) (now : ℕ) : Option EdgeProcessingResult :=
  if history.length < 5 then none
  else
    let temps := history.map (fun h => h.temperature_celsius)
    let slope := trend_slope temps
    some
      { sensor_id := p.sensor_id, analysis_type := "trend_analysis",
        processed_at := now,
        temperature_trend_slope := slope,
        temperature_trend_intercept := trend_intercept temps,
        temperature_current := p.temperature_celsius,
        humidity_current := p.humidity_percent,
        confidence_score :=
          min 1 (p.data_confidence * ((history.length : ℚ) / 10)),
        alerts :=
          (if |slope| > 1/2 then
            (if slope > 0 then ["Rising temperature trend detected"]
             else ["Falling temperature trend detected"])
           else [])
          ++ (if p.humidity_percent > 70 then ["High humidity detected"] else []),
        recommendations :=
          (if |slope| > 1/2 then
            (if slope > 0 then ["Monitor for overheating"]
             else ["Check heating system"])
           else [])
          ++ (if p.humidity_percent > 70 then ["Improve ventilation"] else []) }

/-- `DataProcessor::process_packet_internal`: an invalid packet is logged
and dropped before any state update; a valid one updates the statistics,
is appended to its sensor's bounded history (oldest evicted first), has
its alerts checked (emitted list returned), and — when edge analytics is
enabled — contributes an `EdgeProcessingResult` (the result log is bounded
at 100).  The MQTT/WebSocket forwarding of the formatted packet and the
timer deciding when `aggregate_and_forward` runs (a function-local
`static`) are presentation/scheduling and are not part of this state
transition; aggregation is modelled by `aggregate_and_forward` below. -/
def process_packet_internal (cfg : RPi4GatewayConfig) (st : DPState)
    (p : SensorDataPacket) (now : ℕ) : DPState × List DPAlertKind :=
  if p.is_valid = false then (st, [])
  else
    let stats' := updKV p.sensor_id
      (update_statistics p ((lookupKV p.sensor_id st.sensor_stats).getD {}))
      st.sensor_stats
    let newHist := pushEvict cfg.max_sensor_history
      ((lookupKV p.sensor_id st.sensor_history).getD []) p
    let edge' :=
      if cfg.enable_edge_analytics then
        match perform_edge_analytics newHist p now with
        | none => st.edge_results
        | some r => pushEvict 100 st.edge_results r
      else st.edge_results
    ({ st with
       sensor_stats := stats',
       sensor_history := updKV p.sensor_id newHist st.sensor_history,
       edge_results := edge' }, check_alerts cfg p)

/-- The aggregated JSON object built by
`DataProcessor::format_aggregated_data`; `none` models the literal `"{}"`
returned for an empty packet list or a window with no valid sample. -/
structure AggregatedRecord : Type where
  sensor_id : String
  location : String
  window_seconds : ℕ
  sample_count : ℕ
  valid_count : ℕ
  avg_temperature : ℚ
  min_temperature : ℚ
  max_temperature : ℚ
  avg_humidity : ℚ
  avg_pressure : ℚ
deriving DecidableEq

/-- `DataProcessor::format_aggregated_data`.  Note the source seeds
min/max from `packets[0]` (whether or not that packet is valid) and then
folds min/max, and sums, over the valid packets only. -/
def format_aggregated_data (cfg : RPi4GatewayConfig)
    (packets : List SensorDataPacket) : Option AggregatedRecord :=
  match packets with
  | [] => none
  | p0 :: _ =>
    let valid := packets.filter (fun p => p.is_valid)
    if valid.length = 0 then none
    else
      some
        { sensor_id := p0.sensor_id, location := p0.location,
          window_seconds := cfg.aggregation_window_seconds,
          sample_count := packets.length, valid_count := valid.length,
          avg_temperature :=
            (valid.map (fun p => p.temperature_celsius)).sum / (valid.length : ℚ),
          min_temperature :=
            (valid.map (fun p => p.temperature_celsius)).foldl min
              p0.temperature_celsius,
          max_temperature :=
            (valid.map (fun p => p.temperature_celsius)).foldl max
              p0.temperature_celsius,
          avg_humidity :=
            (valid.map (fun p => p.humidity_percent)).sum / (valid.length : ℚ),
          avg_pressure :=
            (valid.map (fun p => p.pressure_hpa)).sum / (valid.length : ℚ) }

/-- The loop body of `DataProcessor::aggregate_and_forward` for one
`sensor_history_` entry: skip an empty history, filter to the trailing
window (`timestamp >= now − window`), skip an empty window, and otherwise
emit one message for the sensor (the formatted aggregate, `none` standing
for the `"{}"` payload sent when no valid sample exists). -/
def aggregate_step (cfg : RPi4GatewayConfig) (now : ℕ)
    (e : String × List SensorDataPacket) :
    Option (String × Option AggregatedRecord) :=
  if e.2.isEmpty then none
  else
    let recent := e.2.filter
      (fun p => now - cfg.aggregation_window_seconds ≤ p.timestamp)
    if recent.isEmpty then none
    else some (e.1, format_aggregated_data cfg recent)

/-- `DataProcessor::aggregate_and_forward`: one pass over the sensor
map. -/
def aggregate_and_forward (cfg : RPi4GatewayConfig)
    (sensors : List (String × List SensorDataPacket)) (now : ℕ) :
    List (String × Option AggregatedRecord) :=
  sensors.filterMap (aggregate_step cfg now)

/-- `DataProcessor::get_sensor_statistics` (a `const` query; the unchanged
state is returned alongside the result): a missing sensor id yields the
zero-initialized record with the requested id echoed into `sensor_id`. -/
def get_sensor_statistics (st : DPState) (sensor_id : String) :
    SensorStatistics × DPState :=
  (match lookupKV sensor_id st.sensor_stats with
   | some s => s
   | none => { sensor_id := sensor_id }, st)

/-- One of the 10 constant-shape packets used to witness C9. -/
def aggPacket (t : ℚ) (ts : ℕ) : SensorDataPacket :=
  { sensor_id := "s1", temperature_celsius := t, humidity_percent := 50,
    pressure_hpa := 1000, timestamp := ts }

/-- A 10-sample history inside a 60-second window: temperatures averaging
22 with min 20 and max 24. -/
def aggHist : List SensorDataPacket :=
  [aggPacket 20 10, aggPacket 24 11, aggPacket 22 12, aggPacket 22 13,
   aggPacket 22 14, aggPacket 22 15, aggPacket 22 16, aggPacket 22 17,
   aggPacket 22 18, aggPacket 22 19]

/-! ## Verification (theorems) -/

theorem lookupKV_updKV_self {κ ν : Type} [DecidableEq κ] (k : κ) (v : ν)
    (m : List (κ × ν)) : lookupKV k (updKV k v m) = some v := by
  induction m with
  | nil => simp [lookupKV, updKV]
  | cons hd tl ih =>
    obtain ⟨k', v'⟩ := hd
    by_cases h : k = k' <;> simp [lookupKV, updKV, h, ih]

theorem lookupKV_updKV_ne {κ ν : Type} [DecidableEq κ] {k k' : κ} (v : ν)
    (m : List (κ × ν)) (h : k' ≠ k) :
    lookupKV k' (updKV k v m) = lookupKV k' m := by
  induction m with
  | nil => simp [lookupKV, updKV, h]
  | cons hd tl ih =>
    obtain ⟨k₀, v₀⟩ := hd
    by_cases hk : k = k₀
    · subst hk
      simp [lookupKV, updKV, h]
    · by_cases hk' : k' = k₀ <;> simp [lookupKV, updKV, hk, hk', ih]

theorem lastN_length {α : Type} (n : ℕ) (l : List α) :
    (lastN n l).length = min n l.length := by
  rw [lastN, List.length_drop]
  omega

theorem lastN_of_le {α : Type} {n : ℕ} {l : List α} (h : l.length ≤ n) :
    lastN n l = l := by
  rw [lastN, Nat.sub_eq_zero_of_le h, List.drop_zero]

/-- One insertion step keeps the history equal to the last `cap` values
inserted so far. -/
theorem pushEvict_lastN {α : Type} (cap : ℕ) (vs : List α) (x : α) :
    pushEvict cap (lastN cap vs) x = lastN cap (vs ++ [x]) := by
  by_cases h : vs.length < cap
  · rw [lastN_of_le (Nat.le_of_lt h), lastN_of_le (by simp; omega), pushEvict,
      if_neg (by simp; omega)]
  · push_neg at h
    rcases Nat.eq_zero_or_pos cap with hc0 | hc1
    · subst hc0
      have h0 : lastN 0 vs = [] := by simp [lastN]
      have h0' : lastN 0 (vs ++ [x]) = [] := by simp [lastN]
      rw [h0, h0', pushEvict, if_pos (by simp)]
      simp
    · have hlen : (lastN cap vs).length = cap := by rw [lastN_length]; omega
      rw [pushEvict, if_pos (by simp [hlen])]
      rw [lastN, lastN, List.length_append]
      have hsx : [x].length = 1 := rfl
      rw [hsx]
      have hk : vs.length + 1 - cap = (vs.length - cap) + 1 := by omega
      rw [hk, List.drop_append_of_le_length (by omega), ← List.tail_drop]
      cases hd : vs.drop (vs.length - cap) with
      | nil =>
        exfalso
        have hlend := List.length_drop (vs.length - cap) vs
        rw [hd] at hlend
        simp at hlend
        omega
      | cons a tl => simp

theorem lastN_length_le {α : Type} (n : ℕ) (l : List α) :
    (lastN n l).length ≤ n := by
  rw [lastN_length]; omega

/-- **C2**: an alert for a `(sensor, kind)` pair fires exactly when no
last-fired entry exists for that pair or at least `alert_throttle_minutes`
whole minutes have elapsed since the recorded last fire; firing records
`now` as the new last-fired time and emits exactly one alert, and a
throttled candidate leaves the throttle map and alert log unchanged and
emits nothing.  Hence the same `(sensor, kind)` is never emitted twice
within the cooldown window, except for the very first occurrence. -/
theorem alert_fires_iff_cooldown_elapsed (cfg : ThermalConfig)
    (sensor_id : String) (t : AlertType) (s : SensorData) (ra : List Alert)
    (th : ThrottleMap) (now : ℕ) :
    (should_throttle_alert cfg th sensor_id t now = false ↔
      lookupKV (sensor_id, t) th = none ∨
      ∃ last, lookupKV (sensor_id, t) th = some last ∧
        cfg.alert_throttle_minutes ≤ ((minutesBetween last now : ℕ) : ℤ))
    ∧ (should_throttle_alert cfg th sensor_id t now = false →
        generate_alert cfg sensor_id t s ra th now =
          (pushEvict cfg.max_alerts_history ra (mkAlert sensor_id t s now),
           updKV (sensor_id, t) now th, [mkAlert sensor_id t s now]))
    ∧ (should_throttle_alert cfg th sensor_id t now = true →
        generate_alert cfg sensor_id t s ra th now = (ra, th, [])) := by
  refine ⟨?_, ?_, ?_⟩
  · unfold should_throttle_alert
    cases h : lookupKV (sensor_id, t) th with
    | none => simp
    | some last =>
      simp only [h, decide_eq_false_iff_not, not_lt]
      constructor
      · intro hle
        exact Or.inr ⟨last, rfl, hle⟩
      · rintro (hnone | ⟨last', hlast', hle⟩)
        · exact absurd hnone (by simp)
        · cases hlast'
          exact hle
  · intro hfire
    unfold generate_alert
    rw [hfire]
    rfl
  · intro hthrottle
    unfold generate_alert
    rw [hthrottle]
    rfl

/-- Witness for C2 at concrete inputs: with an empty throttle map the
candidate fires (and is recorded); with a last fire 60 seconds ago and the
default 5-minute cooldown it is suppressed. -/
theorem alert_fires_iff_cooldown_elapsed_witness :
    generate_alert {} "s1" AlertType.TEMP_TOO_HIGH {} [] [] 0 =
      (pushEvict 1000 [] (mkAlert "s1" AlertType.TEMP_TOO_HIGH {} 0),
       updKV ("s1", AlertType.TEMP_TOO_HIGH) 0 [],
       [mkAlert "s1" AlertType.TEMP_TOO_HIGH {} 0])
    ∧ generate_alert {} "s1" AlertType.TEMP_TOO_HIGH {}
        [] [(("s1", AlertType.TEMP_TOO_HIGH), 0)] 60 =
      ([], [(("s1", AlertType.TEMP_TOO_HIGH), 0)], []) :=
  ⟨(alert_fires_iff_cooldown_elapsed {} "s1" AlertType.TEMP_TOO_HIGH {} [] [] 0).2.1
      (by decide),
   (alert_fires_iff_cooldown_elapsed {} "s1" AlertType.TEMP_TOO_HIGH {} []
      [(("s1", AlertType.TEMP_TOO_HIGH), 0)] 60).2.2 (by decide)⟩

/-- **C4 (counterexample)**: the claim "`TEMP_TOO_HIGH` fires exactly when
`temperature > temp_max`" fails, because the source checks the thresholds
in an `else if` chain: with `temp_min = 50`, `temp_max = 10` and a reading
of `20`, the temperature exceeds `temp_max` yet only `TEMP_TOO_LOW` is
produced. -/
theorem threshold_high_not_independent :
    (20 : ℚ) > ({ temp_min := 50, temp_max := 10 } : ThermalConfig).temp_max
    ∧ threshold_alerts { temp_min := 50, temp_max := 10 }
        { temperature := 20, last_update := 0 } 0 = [AlertType.TEMP_TOO_LOW]
    ∧ AlertType.TEMP_TOO_HIGH ∉ threshold_alerts { temp_min := 50, temp_max := 10 }
        { temperature := 20, last_update := 0 } 0 := by
  refine ⟨by norm_num, ?_, ?_⟩ <;> decide

/-- **C4 (amended)**: threshold evaluation produces the low/high/humidity
candidates as follows — `TEMP_TOO_LOW` exactly when
`temperature < temp_min`; `TEMP_TOO_HIGH` exactly when
`temp_min ≤ temperature` and `temperature > temp_max` (the low check takes
precedence in the `else if` chain); `HUMIDITY_TOO_HIGH` (independently)
exactly when `humidity > humidity_max`.  Multiple candidates may fire from
one snapshot, and with `temp_max = 28` a reading of `30` produces exactly
one candidate, `TEMP_TOO_HIGH`. -/
theorem threshold_candidates_characterized (cfg : ThermalConfig)
    (s : SensorData) (now : ℕ) :
    (AlertType.TEMP_TOO_LOW ∈ threshold_alerts cfg s now ↔
      s.temperature < cfg.temp_min)
    ∧ (AlertType.TEMP_TOO_HIGH ∈ threshold_alerts cfg s now ↔
      cfg.temp_min ≤ s.temperature ∧ s.temperature > cfg.temp_max)
    ∧ (AlertType.HUMIDITY_TOO_HIGH ∈ threshold_alerts cfg s now ↔
      s.humidity > cfg.humidity_max)
    ∧ threshold_alerts {} { temperature := 30, last_update := now } now
        = [AlertType.TEMP_TOO_HIGH]
    ∧ threshold_alerts {} { temperature := 30, humidity := 70, last_update := now } now
        = [AlertType.TEMP_TOO_HIGH, AlertType.HUMIDITY_TOO_HIGH] := by
  refine ⟨?_, ?_, ?_, ?_, ?_⟩
  · unfold threshold_alerts
    split_ifs <;> simp_all
  · unfold threshold_alerts
    split_ifs <;> simp_all
  · unfold threshold_alerts
    split_ifs <;> simp_all
  · norm_num [threshold_alerts, minutesBetween]
  · norm_num [threshold_alerts, minutesBetween]

/-- **C7**: for a sensor with at least one previously applied reading
(`last_update` set by that reading), applying a new reading sets
`temp_rate` to `(new_temperature − previous_temperature) / elapsed_minutes`
when at least one whole minute has elapsed, and leaves `temp_rate`
unchanged when the elapsed whole-minute count is zero (which covers zero
and negative elapsed time). -/
theorem rate_of_change_computed (cfg : ThermalConfig) (st : TrackerState)
    (sensor_id : String) (temperature humidity : ℚ) (location : String)
    (now : ℕ) (s : SensorData)
    (hs : lookupKV sensor_id st.sensors = some s)
    (hprev : s.last_update ≠ 0) :
    ∃ s', lookupKV sensor_id
        (process_sensor_data cfg st sensor_id temperature humidity location
          now).1.sensors = some s'
      ∧ (0 < minutesBetween s.last_update now →
          s'.temp_rate = (temperature - s.temperature)
            / ((minutesBetween s.last_update now : ℕ) : ℚ))
      ∧ (minutesBetween s.last_update now = 0 → s'.temp_rate = s.temp_rate) := by
  unfold process_sensor_data
  rw [hs]
  simp only [Option.getD_some, lookupKV_updKV_self]
  refine ⟨_, rfl, ?_, ?_⟩
  · intro hpos
    simp [hprev, hpos]
  · intro hzero
    simp [hzero]

/-- Witness for C7: readings of `20.0` then `23.0` for the same sensor 60
seconds apart yield a computed rate of `+3.0` °C/min. -/
theorem rate_of_change_computed_witness :
    ∃ s', lookupKV "s1"
        (process_sensor_data {} (process_sensor_data {} {} "s1" 20 55 "Room1" 60).1
          "s1" 23 55 "Room1" 120).1.sensors = some s'
      ∧ s'.temp_rate = 3 := by
  have hs : lookupKV "s1" (process_sensor_data {} {} "s1" 20 55 "Room1" 60).1.sensors
      = some { sensor_id := "s1", temperature := 20, humidity := 55,
               location := "Room1", last_update := 60, is_active := true,
               temp_rate := 0, temperature_history := [(20, 60)],
               humidity_history := [(55, 60)] } := by decide
  obtain ⟨s', h1, h2, _⟩ := rate_of_change_computed {}
    (process_sensor_data {} {} "s1" 20 55 "Room1" 60).1 "s1" 23 55 "Room1" 120
    _ hs (by decide)
  refine ⟨s', h1, ?_⟩
  rw [h2 (by decide)]
  norm_num [minutesBetween]

theorem tempsFor_append (id : String) (rs' : List Reading) (r : Reading) :
    tempsFor id (rs' ++ [r]) = tempsFor id rs'
      ++ (if r.sensor_id = id then [(r.temperature, r.now)] else []) := by
  unfold tempsFor
  rw [List.filter_append, List.map_append]
  by_cases h : r.sensor_id = id <;> simp [h]

theorem humsFor_append (id : String) (rs' : List Reading) (r : Reading) :
    humsFor id (rs' ++ [r]) = humsFor id rs'
      ++ (if r.sensor_id = id then [(r.humidity, r.now)] else []) := by
  unfold humsFor
  rw [List.filter_append, List.map_append]
  by_cases h : r.sensor_id = id <;> simp [h]

/-- One processed reading appends to the histories of its own sensor
(with FIFO eviction) and leaves every other sensor's histories alone. -/
theorem hist_process (cfg : ThermalConfig) (st : TrackerState)
    (rid : String) (temperature humidity : ℚ) (location : String) (now : ℕ)
    (id : String) :
    (hist_temps (process_sensor_data cfg st rid temperature humidity location
        now).1 id
      = if rid = id
        then pushEvict cfg.history_size (hist_temps st id) (temperature, now)
        else hist_temps st id)
    ∧ (hist_hums (process_sensor_data cfg st rid temperature humidity location
        now).1 id
      = if rid = id
        then pushEvict cfg.history_size (hist_hums st id) (humidity, now)
        else hist_hums st id) := by
  by_cases h : rid = id
  · subst h
    unfold process_sensor_data hist_temps hist_hums
    constructor <;> (simp only [lookupKV_updKV_self, if_pos, Option.getD_some]
                     split_ifs <;> simp)
  · unfold process_sensor_data hist_temps hist_hums
    constructor <;>
      simp [lookupKV_updKV_ne _ _ (fun hh => h hh.symm), h]

/-- **C3**: starting from the empty tracker, after any finite sequence of
processed readings each sensor's temperature and humidity histories hold
exactly the most recent readings for that sensor in application order,
capped at `history_size` with the oldest entry evicted first; in
particular both history lengths are always at most `history_size`.  As
every prefix of a reading sequence is itself a reading sequence, this
bounds the histories at every point of every run. -/
theorem history_bounded_fifo (cfg : ThermalConfig) (rs : List Reading)
    (id : String) :
    hist_temps (applyReadings cfg rs {}) id
        = lastN cfg.history_size (tempsFor id rs)
    ∧ hist_hums (applyReadings cfg rs {}) id
        = lastN cfg.history_size (humsFor id rs)
    ∧ (hist_temps (applyReadings cfg rs {}) id).length ≤ cfg.history_size
    ∧ (hist_hums (applyReadings cfg rs {}) id).length ≤ cfg.history_size := by
  have main : hist_temps (applyReadings cfg rs {}) id
        = lastN cfg.history_size (tempsFor id rs)
      ∧ hist_hums (applyReadings cfg rs {}) id
        = lastN cfg.history_size (humsFor id rs) := by
    induction rs using List.reverseRecOn with
    | nil =>
      constructor <;>
        simp [applyReadings, hist_temps, hist_hums, tempsFor, humsFor, lastN,
          lookupKV]
    | append_singleton rs' r ih =>
      unfold applyReadings at ih ⊢
      rw [List.foldl_append]
      simp only [List.foldl_cons, List.foldl_nil]
      obtain ⟨ihT, ihH⟩ := ih
      obtain ⟨hT, hH⟩ := hist_process cfg
        (List.foldl _ ({} : TrackerState) rs') r.sensor_id r.temperature
        r.humidity r.location r.now id
      constructor
      · rw [hT, tempsFor_append]
        by_cases h : r.sensor_id = id
        · rw [if_pos h, if_pos h, ihT, pushEvict_lastN]
        · rw [if_neg h, if_neg h, ihT, List.append_nil]
      · rw [hH, humsFor_append]
        by_cases h : r.sensor_id = id
        · rw [if_pos h, if_pos h, ihH, pushEvict_lastN]
        · rw [if_neg h, if_neg h, ihH, List.append_nil]
  refine ⟨main.1, main.2, ?_, ?_⟩
  · rw [main.1]; exact lastN_length_le _ _
  · rw [main.2]; exact lastN_length_le _ _

theorem generate_alert_sensor_id (cfg : ThermalConfig) (sid : String)
    (t : AlertType) (s : SensorData) (ra : List Alert) (th : ThrottleMap)
    (now : ℕ) :
    ∀ a ∈ (generate_alert cfg sid t s ra th now).2.2, a.sensor_id = sid := by
  unfold generate_alert
  split_ifs <;> simp [mkAlert]

theorem generate_alert_throttle_other (cfg : ThermalConfig) (sid : String)
    (t : AlertType) (s : SensorData) (ra : List Alert) (th : ThrottleMap)
    (now : ℕ) (id' : String) (t' : AlertType) (h : (id', t') ≠ (sid, t)) :
    lookupKV (id', t') (generate_alert cfg sid t s ra th now).2.1
      = lookupKV (id', t') th := by
  unfold generate_alert
  split_ifs <;> simp
  exact lookupKV_updKV_ne _ _ h

/-- A sweep over entries that do not mention `id` emits no alert for `id`
and leaves all of `id`'s throttle entries unchanged. -/
theorem sweep_frame (cfg : ThermalConfig) (now : ℕ)
    (ss : List (String × SensorData)) (ra : List Alert) (th : ThrottleMap)
    (id : String) (hid : id ∉ ss.map Prod.fst) :
    ((sweep_sensors cfg now ss ra th).2.2.2.filter
        (fun a => a.sensor_id == id) = [])
    ∧ (∀ t, lookupKV (id, t) (sweep_sensors cfg now ss ra th).2.2.1
        = lookupKV (id, t) th) := by
  induction ss generalizing ra th with
  | nil => simp [sweep_sensors]
  | cons hd rest ih =>
    obtain ⟨sid, s0⟩ := hd
    simp only [List.map_cons, List.mem_cons] at hid
    push_neg at hid
    obtain ⟨hne, hrest⟩ := hid
    simp only [sweep_sensors]
    split_ifs with hcond
    · have hother : ∀ t', (id, t') ≠ (sid, AlertType.SENSOR_OFFLINE) := by
        intro t' hcontra
        exact hne (congrArg Prod.fst hcontra)
      obtain ⟨ihFilter, ihTh⟩ := ih
        (generate_alert cfg sid AlertType.SENSOR_OFFLINE
          { s0 with is_active := false } ra th now).1
        (generate_alert cfg sid AlertType.SENSOR_OFFLINE
          { s0 with is_active := false } ra th now).2.1 hrest
      constructor
      · rw [List.filter_append, ihFilter, List.append_nil]
        have hall := generate_alert_sensor_id cfg sid AlertType.SENSOR_OFFLINE
          { s0 with is_active := false } ra th now
        rw [List.filter_eq_nil_iff]
        intro a ha
        simp only [beq_iff_eq]
        rw [hall a ha]
        exact fun hh => hne hh.symm
      · intro t
        rw [ihTh t]
        exact generate_alert_throttle_other cfg sid AlertType.SENSOR_OFFLINE
          { s0 with is_active := false } ra th now id t (hother t)
    · exact ih ra th hrest

/-- The sweep preserves the key sequence of the sensor map. -/
theorem sweep_keys (cfg : ThermalConfig) (now : ℕ)
    (ss : List (String × SensorData)) (ra : List Alert) (th : ThrottleMap) :
    (sweep_sensors cfg now ss ra th).1.map Prod.fst = ss.map Prod.fst := by
  induction ss generalizing ra th with
  | nil => simp [sweep_sensors]
  | cons hd rest ih =>
    obtain ⟨sid, s0⟩ := hd
    simp only [sweep_sensors]
    split_ifs <;> simp [ih]

/-- An active, stale sensor with no prior `SENSOR_OFFLINE` throttle entry
is marked inactive by the sweep and emits exactly one offline alert. -/
theorem sweep_active_stale (cfg : ThermalConfig) (now : ℕ)
    (ss : List (String × SensorData)) (ra : List Alert) (th : ThrottleMap)
    (id : String) (s : SensorData)
    (hkeys : (ss.map Prod.fst).Nodup)
    (hs : lookupKV id ss = some s)
    (hact : s.is_active = true)
    (hstale : ((minutesBetween s.last_update now : ℕ) : ℤ)
      > cfg.sensor_timeout_minutes)
    (hfresh : lookupKV (id, AlertType.SENSOR_OFFLINE) th = none) :
    lookupKV id (sweep_sensors cfg now ss ra th).1
      = some { s with is_active := false }
    ∧ (sweep_sensors cfg now ss ra th).2.2.2.filter
        (fun a => a.sensor_id == id)
      = [mkAlert id AlertType.SENSOR_OFFLINE { s with is_active := false } now] := by
  induction ss generalizing ra th with
  | nil => simp [lookupKV] at hs
  | cons hd rest ih =>
    obtain ⟨sid, s0⟩ := hd
    simp only [List.map_cons, List.nodup_cons] at hkeys
    obtain ⟨hnotin, hkeysRest⟩ := hkeys
    by_cases hid : id = sid
    · subst hid
      rw [lookupKV, if_pos rfl] at hs
      cases hs
      simp only [sweep_sensors]
      rw [if_pos ⟨hact, hstale⟩]
      have hnofire : should_throttle_alert cfg th id AlertType.SENSOR_OFFLINE now
          = false := by
        unfold should_throttle_alert
        rw [hfresh]
      have hgen : generate_alert cfg id AlertType.SENSOR_OFFLINE
          { s with is_active := false } ra th now
          = (pushEvict cfg.max_alerts_history ra
              (mkAlert id AlertType.SENSOR_OFFLINE { s with is_active := false } now),
             updKV (id, AlertType.SENSOR_OFFLINE) now th,
             [mkAlert id AlertType.SENSOR_OFFLINE { s with is_active := false } now]) := by
        unfold generate_alert
        rw [hnofire]
        rfl
      rw [hgen]
      obtain ⟨hframeF, _⟩ := sweep_frame cfg now rest
        (pushEvict cfg.max_alerts_history ra
          (mkAlert id AlertType.SENSOR_OFFLINE { s with is_active := false } now))
        (updKV (id, AlertType.SENSOR_OFFLINE) now th) id hnotin
      constructor
      · rw [lookupKV, if_pos rfl]
      · rw [List.filter_append, hframeF]
        simp [mkAlert]
    · have hsrest : lookupKV id rest = some s := by
        rw [lookupKV, if_neg hid] at hs
        exact hs
      simp only [sweep_sensors]
      split_ifs with hcond
      · have hother : (id, AlertType.SENSOR_OFFLINE)
            ≠ (sid, AlertType.SENSOR_OFFLINE) := by
          intro hcontra
          exact hid (congrArg Prod.fst hcontra)
        have hfresh' : lookupKV (id, AlertType.SENSOR_OFFLINE)
            (generate_alert cfg sid AlertType.SENSOR_OFFLINE
              { s0 with is_active := false } ra th now).2.1 = none := by
          rw [generate_alert_throttle_other cfg sid AlertType.SENSOR_OFFLINE
            { s0 with is_active := false } ra th now id AlertType.SENSOR_OFFLINE
            hother]
          exact hfresh
        obtain ⟨ih1, ih2⟩ := ih _ _ hkeysRest hsrest hfresh'
        constructor
        · rw [lookupKV, if_neg hid]
          exact ih1
        · rw [List.filter_append, ih2]
          have hall := generate_alert_sensor_id cfg sid AlertType.SENSOR_OFFLINE
            { s0 with is_active := false } ra th now
          have : (generate_alert cfg sid AlertType.SENSOR_OFFLINE
              { s0 with is_active := false } ra th now).2.2.filter
              (fun a => a.sensor_id == id) = [] := by
            rw [List.filter_eq_nil_iff]
            intro a ha
            simp only [beq_iff_eq]
            rw [hall a ha]
            exact fun hh => hid hh.symm
          rw [this, List.nil_append]
      · obtain ⟨ih1, ih2⟩ := ih ra th hkeysRest hsrest hfresh
        constructor
        · rw [lookupKV, if_neg hid]
          exact ih1
        · exact ih2

/-- An inactive sensor is left untouched by the sweep and emits nothing. -/
theorem sweep_inactive (cfg : ThermalConfig) (now : ℕ)
    (ss : List (String × SensorData)) (ra : List Alert) (th : ThrottleMap)
    (id : String) (s : SensorData)
    (hkeys : (ss.map Prod.fst).Nodup)
    (hs : lookupKV id ss = some s)
    (hinact : s.is_active = false) :
    lookupKV id (sweep_sensors cfg now ss ra th).1 = some s
    ∧ (sweep_sensors cfg now ss ra th).2.2.2.filter
        (fun a => a.sensor_id == id) = [] := by
  induction ss generalizing ra th with
  | nil => simp [lookupKV] at hs
  | cons hd rest ih =>
    obtain ⟨sid, s0⟩ := hd
    simp only [List.map_cons, List.nodup_cons] at hkeys
    obtain ⟨hnotin, hkeysRest⟩ := hkeys
    by_cases hid : id = sid
    · subst hid
      rw [lookupKV, if_pos rfl] at hs
      cases hs
      simp only [sweep_sensors]
      have hcond : ¬(s.is_active
          ∧ ((minutesBetween s.last_update now : ℕ) : ℤ)
            > cfg.sensor_timeout_minutes) := by
        rintro ⟨ha, _⟩
        rw [hinact] at ha
        exact Bool.false_ne_true ha
      rw [if_neg hcond]
      obtain ⟨hframeF, _⟩ := sweep_frame cfg now rest ra th id hnotin
      constructor
      · rw [lookupKV, if_pos rfl]
      · exact hframeF
    · have hsrest : lookupKV id rest = some s := by
        rw [lookupKV, if_neg hid] at hs
        exact hs
      simp only [sweep_sensors]
      split_ifs with hcond
      · obtain ⟨ih1, ih2⟩ := ih _ _ hkeysRest hsrest
        constructor
        · rw [lookupKV, if_neg hid]
          exact ih1
        · rw [List.filter_append, ih2]
          have hall := generate_alert_sensor_id cfg sid AlertType.SENSOR_OFFLINE
            { s0 with is_active := false } ra th now
          have hnil : (generate_alert cfg sid AlertType.SENSOR_OFFLINE
              { s0 with is_active := false } ra th now).2.2.filter
              (fun a => a.sensor_id == id) = [] := by
            rw [List.filter_eq_nil_iff]
            intro a ha
            simp only [beq_iff_eq]
            rw [hall a ha]
            exact fun hh => hid hh.symm
          rw [hnil, List.nil_append]
      · obtain ⟨ih1, ih2⟩ := ih ra th hkeysRest hsrest
        constructor
        · rw [lookupKV, if_neg hid]
          exact ih1
        · exact ih2

/-- A processed reading always leaves its sensor active
(`sensor.is_active = true` in `process_sensor_data`). -/
theorem process_sets_active (cfg : ThermalConfig) (st : TrackerState)
    (id : String) (temperature humidity : ℚ) (location : String) (now : ℕ) :
    ∃ s', lookupKV id (process_sensor_data cfg st id temperature humidity
        location now).1.sensors = some s'
      ∧ s'.is_active = true := by
  unfold process_sensor_data
  simp only [lookupKV_updKV_self]
  refine ⟨_, rfl, ?_⟩
  split_ifs <;> rfl

/-- **C6**: a sweep over a well-formed sensor map (distinct keys, as in
`unordered_map`) marks an active sensor whose last update is more than
`sensor_timeout_minutes` old inactive and — in a fresh offline episode,
i.e. with no recorded `SENSOR_OFFLINE` throttle entry — emits exactly one
`SENSOR_OFFLINE` alert for it; a second sweep at any later tick emits
nothing for that sensor and leaves it unchanged, and a new reading for the
sensor sets it active again (after which the staleness check can re-fire).
So the offline alert fires once per offline episode, not once per tick. -/
theorem offline_sweep_once_per_episode (cfg : ThermalConfig)
    (st : TrackerState) (now now2 : ℕ) (id : String) (s : SensorData)
    (hkeys : (st.sensors.map Prod.fst).Nodup)
    (hs : lookupKV id st.sensors = some s)
    (hact : s.is_active = true)
    (hstale : ((minutesBetween s.last_update now : ℕ) : ℤ)
      > cfg.sensor_timeout_minutes)
    (hfresh : lookupKV (id, AlertType.SENSOR_OFFLINE) st.alert_throttle
      = none) :
    lookupKV id (check_offline_sensors cfg st now).1.sensors
        = some { s with is_active := false }
    ∧ (check_offline_sensors cfg st now).2.filter (fun a => a.sensor_id == id)
        = [mkAlert id AlertType.SENSOR_OFFLINE { s with is_active := false } now]
    ∧ lookupKV id (check_offline_sensors cfg
          (check_offline_sensors cfg st now).1 now2).1.sensors
        = some { s with is_active := false }
    ∧ (check_offline_sensors cfg (check_offline_sensors cfg st now).1
          now2).2.filter (fun a => a.sensor_id == id) = []
    ∧ (∀ temperature humidity location now3,
        ∃ s', lookupKV id (process_sensor_data cfg
            (check_offline_sensors cfg st now).1 id temperature humidity
            location now3).1.sensors = some s'
          ∧ s'.is_active = true) := by
  obtain ⟨h1, h2⟩ := sweep_active_stale cfg now st.sensors st.recent_alerts
    st.alert_throttle id s hkeys hs hact hstale hfresh
  have hkeys1 : ((check_offline_sensors cfg st now).1.sensors.map
      Prod.fst).Nodup := by
    unfold check_offline_sensors
    rw [sweep_keys]
    exact hkeys
  have hs1 : lookupKV id (check_offline_sensors cfg st now).1.sensors
      = some { s with is_active := false } := h1
  obtain ⟨h3, h4⟩ := sweep_inactive cfg now2
    (check_offline_sensors cfg st now).1.sensors
    (check_offline_sensors cfg st now).1.recent_alerts
    (check_offline_sensors cfg st now).1.alert_throttle id
    { s with is_active := false } hkeys1 hs1 rfl
  exact ⟨h1, h2, h3, h4, fun temperature humidity location now3 =>
    process_sets_active cfg (check_offline_sensors cfg st now).1 id
      temperature humidity location now3⟩

/-- Witness for C6: one reading at `t = 60 s`, a sweep at `t = 720 s`
(11 whole minutes later, past the default 10-minute timeout) fires one
offline alert and deactivates the sensor; a second sweep at `t = 1440 s`
fires nothing, and a later reading reactivates the sensor. -/
theorem offline_sweep_once_per_episode_witness :
    lookupKV "s1" (check_offline_sensors {}
        (process_sensor_data {} {} "s1" 25 50 "Room1" 60).1 720).1.sensors
      = some { sensor_id := "s1", temperature := 25, humidity := 50,
               location := "Room1", last_update := 60, is_active := false,
               temp_rate := 0, temperature_history := [(25, 60)],
               humidity_history := [(50, 60)] }
    ∧ (check_offline_sensors {}
        (process_sensor_data {} {} "s1" 25 50 "Room1" 60).1 720).2.filter
        (fun a => a.sensor_id == "s1")
      = [mkAlert "s1" AlertType.SENSOR_OFFLINE
          { sensor_id := "s1", temperature := 25, humidity := 50,
            location := "Room1", last_update := 60, is_active := false,
            temp_rate := 0, temperature_history := [(25, 60)],
            humidity_history := [(50, 60)] } 720]
    ∧ (check_offline_sensors {} (check_offline_sensors {}
        (process_sensor_data {} {} "s1" 25 50 "Room1" 60).1 720).1
        1440).2.filter (fun a => a.sensor_id == "s1") = []
    ∧ ∃ s', lookupKV "s1" (process_sensor_data {}
        (check_offline_sensors {}
          (process_sensor_data {} {} "s1" 25 50 "Room1" 60).1 720).1
        "s1" 26 50 "Room1" 1500).1.sensors = some s'
      ∧ s'.is_active = true := by
  obtain ⟨h1, h2, h3, h4, h5⟩ := offline_sweep_once_per_episode {}
    (process_sensor_data {} {} "s1" 25 50 "Room1" 60).1 720 1440 "s1"
    { sensor_id := "s1", temperature := 25, humidity := 50,
      location := "Room1", last_update := 60, is_active := true,
      temp_rate := 0, temperature_history := [(25, 60)],
      humidity_history := [(50, 60)] }
    (by decide) (by decide) (by decide) (by decide) (by decide)
  exact ⟨h1, h2, h4, h5 26 50 "Room1" 1500⟩

/-- **C1 (counterexample)**: processing a reading with `is_valid = false`
does *not* update the sensor's `last_update` nor increment an
invalid-reading counter — `process_packet_internal` returns before
`update_statistics` is ever called, so from the empty state the sensor has
no statistics entry at all afterwards (no counter was incremented, no
timestamp recorded). -/
theorem invalid_reading_counterexample :
    process_packet_internal {} {} { sensor_id := "s1", is_valid := false } 0
      = ({}, [])
    ∧ lookupKV "s1" (process_packet_internal {} {}
        { sensor_id := "s1", is_valid := false } 0).1.sensor_stats = none := by
  constructor <;> decide

/-- **C1 (amended)**: a reading whose validity flag is false is discarded
entirely: the processor state (statistics incl. `last_update` and the
error counter, histories, values, edge results) is unchanged and no alert
is emitted from that sample. -/
theorem invalid_reading_discarded (cfg : RPi4GatewayConfig) (st : DPState)
    (p : SensorDataPacket) (now : ℕ) (h : p.is_valid = false) :
    process_packet_internal cfg st p now = (st, []) := by
  unfold process_packet_internal
  rw [h]
  simp

/-- Witness for the amended C1 at a concrete invalid packet. -/
theorem invalid_reading_discarded_witness :
    process_packet_internal {} {}
      { sensor_id := "s7", temperature_celsius := 995, is_valid := false } 3
      = ({}, []) :=
  invalid_reading_discarded {} {}
    { sensor_id := "s7", temperature_celsius := 995, is_valid := false } 3 rfl

/-- **C5 (counterexample)**: submitting to a full queue drops the newest
reading but increments no drop counter — the `DataProcessor` has no such
counter, and the whole state (queue, histories, statistics, …) is returned
unchanged, bit for bit. -/
theorem queue_full_no_counter_counterexample :
    process_packet { max_queue_size := 1 }
      { processing_queue := [{ sensor_id := "a" }] } { sensor_id := "b" }
      = { processing_queue := [{ sensor_id := "a" }] } := by
  decide

/-- **C5 (amended)**: while running, a submission to a full queue fails
fast — the newest reading is dropped (with only a log message; no drop
counter exists) and the queue and all per-sensor state are unchanged; a
submission to a non-full queue appends exactly that reading; consequently
the queue length never exceeds `max_queue_size` once it is within it. -/
theorem queue_bounded_drop_newest (cfg : RPi4GatewayConfig) (st : DPState)
    (p : SensorDataPacket) :
    (cfg.max_queue_size ≤ st.processing_queue.length →
      process_packet cfg st p = st)
    ∧ (st.running = true → st.processing_queue.length < cfg.max_queue_size →
      process_packet cfg st p
        = { st with processing_queue := st.processing_queue ++ [p] })
    ∧ (st.processing_queue.length ≤ cfg.max_queue_size →
      (process_packet cfg st p).processing_queue.length ≤ cfg.max_queue_size) := by
  refine ⟨?_, ?_, ?_⟩
  · intro hfull
    unfold process_packet
    by_cases hr : st.running = false
    · rw [if_pos hr]
    · rw [if_neg hr, if_pos hfull]
  · intro hrun hroom
    unfold process_packet
    rw [if_neg (by rw [hrun]; simp), if_neg (by omega)]
  · intro hle
    unfold process_packet
    by_cases hr : st.running = false
    · rw [if_pos hr]
      exact hle
    · rw [if_neg hr]
      by_cases hq : cfg.max_queue_size ≤ st.processing_queue.length
      · rw [if_pos hq]
        exact hle
      · rw [if_neg hq]
        simp only [List.length_append, List.length_cons, List.length_nil]
        omega

/-- Witness for C5: with capacity 1, a second submission is dropped and
the queue stays at length 1; the first submission was appended. -/
theorem queue_bounded_drop_newest_witness :
    process_packet { max_queue_size := 1 }
      { processing_queue := [{ sensor_id := "a" }] } { sensor_id := "c" }
      = { processing_queue := [{ sensor_id := "a" }] }
    ∧ process_packet { max_queue_size := 1 } {} ({ sensor_id := "a" })
      = { processing_queue := [{ sensor_id := "a" }] } :=
  ⟨(queue_bounded_drop_newest { max_queue_size := 1 }
      { processing_queue := [{ sensor_id := "a" }] } { sensor_id := "c" }).1
      (by decide),
   (queue_bounded_drop_newest { max_queue_size := 1 } {}
      { sensor_id := "a" }).2.1 rfl (by decide)⟩

/-- **C10**: querying statistics for a sensor id absent from the store
leaves the state unchanged in both components and returns:
for the tracker's `get_sensor_stats`, the zero-initialized `SensorStats`
whose `sensor_id` and `location` are the empty string (the queried id is
not echoed back); for the data processor's `get_sensor_statistics`, the
zero-initialized record with the requested id echoed into `sensor_id`. -/
theorem missing_sensor_stats_queries (st : TrackerState) (dst : DPState)
    (id : String) (now : ℕ)
    (h1 : lookupKV id st.sensors = none)
    (h2 : lookupKV id dst.sensor_stats = none) :
    get_sensor_stats st id now = ({}, st)
    ∧ ({} : SensorStats).sensor_id = ""
    ∧ ({} : SensorStats).location = ""
    ∧ get_sensor_statistics dst id = ({ sensor_id := id }, dst) := by
  refine ⟨?_, rfl, rfl, ?_⟩
  · unfold get_sensor_stats
    rw [h1]
  · unfold get_sensor_statistics
    rw [h2]

/-- Witness for C10 on the empty stores at a concrete id. -/
theorem missing_sensor_stats_queries_witness :
    get_sensor_stats {} "sX" 5 = ({}, {})
    ∧ get_sensor_statistics {} "sX" = ({ sensor_id := "sX" }, {}) :=
  ⟨(missing_sensor_stats_queries {} {} "sX" 5 rfl rfl).1,
   (missing_sensor_stats_queries {} {} "sX" 5 rfl rfl).2.2.2⟩

/-- The sign of the least-squares slope on monotone data follows from the
double-sum identity
`∑ᵢ∑ⱼ (i−j)(yᵢ−yⱼ) = 2 (n ∑ i·yᵢ − (∑ i)(∑ yᵢ))`: every term of the left
side is non-negative when `y` is strictly increasing in the index, and
positive off the diagonal. -/
theorem double_sum_sub_mul (n : ℕ) (y : ℕ → ℚ) :
    ∑ i ∈ Finset.range n, ∑ j ∈ Finset.range n, ((i : ℚ) - j) * (y i - y j)
      = 2 * ((n : ℚ) * (∑ i ∈ Finset.range n, (i : ℚ) * y i)
        - (∑ i ∈ Finset.range n, (i : ℚ)) * (∑ i ∈ Finset.range n, y i)) := by
  have inner : ∀ i : ℕ,
      ∑ j ∈ Finset.range n, ((i : ℚ) - j) * (y i - y j)
      = (n : ℚ) * ((i : ℚ) * y i) - (i : ℚ) * (∑ j ∈ Finset.range n, y j)
        - (∑ j ∈ Finset.range n, (j : ℚ)) * y i
        + ∑ j ∈ Finset.range n, (j : ℚ) * y j := by
    intro i
    have expand : ∀ j ∈ Finset.range n, ((i : ℚ) - j) * (y i - y j)
        = ((i : ℚ) * y i - (i : ℚ) * y j) - ((j : ℚ) * y i - (j : ℚ) * y j) := by
      intro j _
      ring
    rw [Finset.sum_congr rfl expand, Finset.sum_sub_distrib,
      Finset.sum_sub_distrib, Finset.sum_sub_distrib, Finset.sum_const,
      ← Finset.mul_sum, ← Finset.sum_mul, nsmul_eq_mul,
      Finset.card_range]
    ring
  rw [Finset.sum_congr rfl fun i _ => inner i, Finset.sum_add_distrib,
    Finset.sum_sub_distrib, Finset.sum_sub_distrib, Finset.sum_const,
    ← Finset.mul_sum, ← Finset.sum_mul, ← Finset.mul_sum, nsmul_eq_mul,
    Finset.card_range]
  ring

theorem cov_pos (n : ℕ) (hn : 2 ≤ n) (y : ℕ → ℚ)
    (hmono : ∀ i j, i < j → j < n → y i < y j) :
    0 < (n : ℚ) * (∑ i ∈ Finset.range n, (i : ℚ) * y i)
      - (∑ i ∈ Finset.range n, (i : ℚ)) * (∑ i ∈ Finset.range n, y i) := by
  have hterm : ∀ i, i < n → ∀ j, j < n →
      0 ≤ ((i : ℚ) - j) * (y i - y j) := by
    intro i hi j hj
    rcases lt_trichotomy i j with h | h | h
    · have h1 : (i : ℚ) - j < 0 := by
        have := (Nat.cast_lt (α := ℚ)).2 h
        linarith
      have h2 : y i - y j < 0 := by
        have := hmono i j h hj
        linarith
      exact le_of_lt (mul_pos_of_neg_of_neg h1 h2)
    · subst h
      simp
    · have h1 : 0 < (i : ℚ) - j := by
        have := (Nat.cast_lt (α := ℚ)).2 h
        linarith
      have h2 : 0 < y i - y j := by
        have := hmono j i h hi
        linarith
      exact le_of_lt (mul_pos h1 h2)
  have hdouble : 0 < ∑ i ∈ Finset.range n, ∑ j ∈ Finset.range n,
      ((i : ℚ) - j) * (y i - y j) := by
    apply Finset.sum_pos'
    · intro i hi
      exact Finset.sum_nonneg fun j hj =>
        hterm i (Finset.mem_range.1 hi) j (Finset.mem_range.1 hj)
    · refine ⟨0, Finset.mem_range.2 (by omega), ?_⟩
      apply Finset.sum_pos'
      · intro j hj
        exact hterm 0 (by omega) j (Finset.mem_range.1 hj)
      · refine ⟨1, Finset.mem_range.2 (by omega), ?_⟩
        have h2 : y 0 < y 1 := hmono 0 1 (by omega) (by omega)
        have hrw : ((0 : ℕ) : ℚ) - ((1 : ℕ) : ℚ) = -1 := by norm_num
        nlinarith
  rw [double_sum_sub_mul n y] at hdouble
  linarith

theorem cov_neg (n : ℕ) (hn : 2 ≤ n) (y : ℕ → ℚ)
    (hmono : ∀ i j, i < j → j < n → y j < y i) :
    (n : ℚ) * (∑ i ∈ Finset.range n, (i : ℚ) * y i)
      - (∑ i ∈ Finset.range n, (i : ℚ)) * (∑ i ∈ Finset.range n, y i) < 0 := by
  have h := cov_pos n hn (fun i => -(y i)) (fun i j hij hj => by
    have := hmono i j hij hj
    simp only [neg_lt_neg_iff]
    linarith)
  have h1 : ∑ i ∈ Finset.range n, (i : ℚ) * (-(y i))
      = -∑ i ∈ Finset.range n, (i : ℚ) * y i := by
    rw [← Finset.sum_neg_distrib]
    exact Finset.sum_congr rfl fun i _ => by ring
  have h2 : ∑ i ∈ Finset.range n, (-(y i)) = -∑ i ∈ Finset.range n, y i :=
    Finset.sum_neg_distrib
  rw [h1, h2] at h
  linarith

/-- The denominator `n·Σx² − (Σx)²` of the slope is positive for `n ≥ 2`
(it is half of `∑ᵢ∑ⱼ (i−j)²`). -/
theorem var_x_pos (n : ℕ) (hn : 2 ≤ n) :
    0 < (n : ℚ) * (∑ i ∈ Finset.range n, (i : ℚ) * (i : ℚ))
      - (∑ i ∈ Finset.range n, (i : ℚ)) * (∑ i ∈ Finset.range n, (i : ℚ)) :=
  cov_pos n hn (fun i => (i : ℚ)) fun _ _ hij _ => (Nat.cast_lt (α := ℚ)).2 hij

/-- The closed formula `n (n−1) / 2` used for `sum_x` in the source equals
the actual index sum. -/
theorem cast_sum_range_id (n : ℕ) :
    (∑ i ∈ Finset.range n, (i : ℚ)) = (n : ℚ) * ((n : ℚ) - 1) / 2 := by
  induction n with
  | zero => simp
  | succ m ih =>
    rw [Finset.sum_range_succ, ih]
    push_cast
    ring

/-- `std::accumulate` over the list equals the indexed `getD` sum. -/
theorem list_sum_eq_range_sum (l : List ℚ) :
    l.sum = ∑ i ∈ Finset.range l.length, l.getD i 0 := by
  induction l with
  | nil => simp
  | cons a tl ih =>
    rw [List.sum_cons, List.length_cons, Finset.sum_range_succ', ih]
    simp only [List.getD_cons_succ, List.getD_cons_zero]
    ring

/-- A strictly increasing list has positive least-squares slope. -/
theorem trend_slope_pos (temps : List ℚ) (hlen : 2 ≤ temps.length)
    (hmono : temps.Pairwise (· < ·)) : 0 < trend_slope temps := by
  have hmono' : ∀ i j, i < j → j < temps.length →
      temps.getD i 0 < temps.getD j 0 := by
    intro i j hij hj
    have hi : i < temps.length := lt_trans hij hj
    rw [List.getD_eq_getElem temps 0 hi, List.getD_eq_getElem temps 0 hj]
    exact List.pairwise_iff_getElem.1 hmono i j hi hj hij
  unfold trend_slope sum_xy sum_x2
  rw [← cast_sum_range_id, list_sum_eq_range_sum]
  exact div_pos
    (cov_pos temps.length hlen (fun i => temps.getD i 0) hmono')
    (var_x_pos temps.length hlen)

/-- A strictly decreasing list has negative least-squares slope. -/
theorem trend_slope_neg (temps : List ℚ) (hlen : 2 ≤ temps.length)
    (hmono : temps.Pairwise (· > ·)) : trend_slope temps < 0 := by
  have hmono' : ∀ i j, i < j → j < temps.length →
      temps.getD j 0 < temps.getD i 0 := by
    intro i j hij hj
    have hi : i < temps.length := lt_trans hij hj
    rw [List.getD_eq_getElem temps 0 hi, List.getD_eq_getElem temps 0 hj]
    exact List.pairwise_iff_getElem.1 hmono i j hi hj hij
  unfold trend_slope sum_xy sum_x2
  rw [← cast_sum_range_id, list_sum_eq_range_sum]
  exact div_neg_of_neg_of_pos
    (cov_neg temps.length hlen (fun i => temps.getD i 0) hmono')
    (var_x_pos temps.length hlen)

/-- The slope computed by the source (with its closed-form `sum_x`) equals
the textbook ordinary-least-squares slope of value against sample index. -/
theorem trend_slope_eq_ols (temps : List ℚ) :
    trend_slope temps
      = ((temps.length : ℚ)
            * (∑ i ∈ Finset.range temps.length, (i : ℚ) * temps.getD i 0)
          - (∑ i ∈ Finset.range temps.length, (i : ℚ))
            * (∑ i ∈ Finset.range temps.length, temps.getD i 0))
        / ((temps.length : ℚ)
            * (∑ i ∈ Finset.range temps.length, (i : ℚ) * (i : ℚ))
          - (∑ i ∈ Finset.range temps.length, (i : ℚ))
            * (∑ i ∈ Finset.range temps.length, (i : ℚ))) := by
  unfold trend_slope sum_xy sum_x2
  rw [← cast_sum_range_id, list_sum_eq_range_sum]

/-- **C8**: trend analysis returns no result for histories of fewer than 5
samples; for a history of at least 5 samples it returns a result whose
slope is the ordinary-least-squares regression slope of temperature
against sample index — positive for every strictly increasing series and
negative for every strictly decreasing one. -/
theorem trend_analysis_ols (history : List SensorDataPacket)
    (p : SensorDataPacket) (now : ℕ) :
    (history.length < 5 → perform_edge_analytics history p now = none)
    ∧ (5 ≤ history.length →
      ∃ r, perform_edge_analytics history p now = some r
        ∧ r.temperature_trend_slope
            = ((history.length : ℚ)
                  * (∑ i ∈ Finset.range history.length, (i : ℚ)
                      * (history.map (fun h => h.temperature_celsius)).getD i 0)
                - (∑ i ∈ Finset.range history.length, (i : ℚ))
                  * (∑ i ∈ Finset.range history.length,
                      (history.map (fun h => h.temperature_celsius)).getD i 0))
              / ((history.length : ℚ)
                  * (∑ i ∈ Finset.range history.length, (i : ℚ) * (i : ℚ))
                - (∑ i ∈ Finset.range history.length, (i : ℚ))
                  * (∑ i ∈ Finset.range history.length, (i : ℚ)))
        ∧ ((history.map (fun h => h.temperature_celsius)).Pairwise (· < ·) →
            0 < r.temperature_trend_slope)
        ∧ ((history.map (fun h => h.temperature_celsius)).Pairwise (· > ·) →
            r.temperature_trend_slope < 0)) := by
  constructor
  · intro h
    unfold perform_edge_analytics
    rw [if_pos h]
  · intro h
    unfold perform_edge_analytics
    rw [if_neg (by omega)]
    refine ⟨_, rfl, ?_, ?_, ?_⟩
    · have := trend_slope_eq_ols (history.map (fun q => q.temperature_celsius))
      rw [List.length_map] at this
      exact this
    · intro hmono
      exact trend_slope_pos _ (by rw [List.length_map]; omega) hmono
    · intro hmono
      exact trend_slope_neg _ (by rw [List.length_map]; omega) hmono

/-- Witness for C8: 2 samples give no result; the strictly increasing
series `1..5` gives a positive slope; the strictly decreasing series
`5..1` gives a negative slope. -/
theorem trend_analysis_ols_witness :
    perform_edge_analytics
      [{ temperature_celsius := 1 }, { temperature_celsius := 2 }] {} 0 = none
    ∧ (∃ r, perform_edge_analytics
        [{ temperature_celsius := 1 }, { temperature_celsius := 2 },
         { temperature_celsius := 3 }, { temperature_celsius := 4 },
         { temperature_celsius := 5 }] {} 0 = some r
        ∧ 0 < r.temperature_trend_slope)
    ∧ (∃ r, perform_edge_analytics
        [{ temperature_celsius := 5 }, { temperature_celsius := 4 },
         { temperature_celsius := 3 }, { temperature_celsius := 2 },
         { temperature_celsius := 1 }] {} 0 = some r
        ∧ r.temperature_trend_slope < 0) := by
  refine ⟨(trend_analysis_ols
    [{ temperature_celsius := 1 }, { temperature_celsius := 2 }] {} 0).1
    (by decide), ?_, ?_⟩
  · obtain ⟨r, hr, _, hpos, _⟩ := (trend_analysis_ols
      [{ temperature_celsius := 1 }, { temperature_celsius := 2 },
       { temperature_celsius := 3 }, { temperature_celsius := 4 },
       { temperature_celsius := 5 }] {} 0).2 (by decide)
    exact ⟨r, hr, hpos (by decide)⟩
  · obtain ⟨r, hr, _, _, hneg⟩ := (trend_analysis_ols
      [{ temperature_celsius := 5 }, { temperature_celsius := 4 },
       { temperature_celsius := 3 }, { temperature_celsius := 2 },
       { temperature_celsius := 1 }] {} 0).2 (by decide)
    exact ⟨r, hr, hneg (by decide)⟩

theorem foldl_min_le (l : List ℚ) (a : ℚ) :
    l.foldl min a ≤ a ∧ ∀ t ∈ l, l.foldl min a ≤ t := by
  induction l generalizing a with
  | nil => exact ⟨le_refl a, by simp⟩
  | cons b tl ih =>
    obtain ⟨h1, h2⟩ := ih (min a b)
    refine ⟨le_trans h1 (min_le_left a b), ?_⟩
    intro t ht
    rcases List.mem_cons.1 ht with rfl | ht'
    · exact le_trans h1 (min_le_right a t)
    · exact h2 t ht'

theorem foldl_min_mem (l : List ℚ) (a : ℚ) :
    l.foldl min a = a ∨ l.foldl min a ∈ l := by
  induction l generalizing a with
  | nil => exact Or.inl rfl
  | cons b tl ih =>
    rw [List.foldl_cons]
    rcases ih (min a b) with h | h
    · rcases min_choice a b with hc | hc
      · exact Or.inl (h.trans hc)
      · exact Or.inr (List.mem_cons.2 (Or.inl (h.trans hc)))
    · exact Or.inr (List.mem_cons_of_mem b h)

theorem foldl_max_ge (l : List ℚ) (a : ℚ) :
    a ≤ l.foldl max a ∧ ∀ t ∈ l, t ≤ l.foldl max a := by
  induction l generalizing a with
  | nil => exact ⟨le_refl a, by simp⟩
  | cons b tl ih =>
    obtain ⟨h1, h2⟩ := ih (max a b)
    refine ⟨le_trans (le_max_left a b) h1, ?_⟩
    intro t ht
    rcases List.mem_cons.1 ht with rfl | ht'
    · exact le_trans (le_max_right a t) h1
    · exact h2 t ht'

theorem foldl_max_mem (l : List ℚ) (a : ℚ) :
    l.foldl max a = a ∨ l.foldl max a ∈ l := by
  induction l generalizing a with
  | nil => exact Or.inl rfl
  | cons b tl ih =>
    rw [List.foldl_cons]
    rcases ih (max a b) with h | h
    · rcases max_choice a b with hc | hc
      · exact Or.inl (h.trans hc)
      · exact Or.inr (List.mem_cons.2 (Or.inl (h.trans hc)))
    · exact Or.inr (List.mem_cons_of_mem b h)

/-- On a non-empty window whose packets are all valid, the formatter
produces exactly one aggregate whose counts and averages range over all
(= all valid) samples and whose min/max are attained. -/
theorem format_all_valid (cfg : RPi4GatewayConfig)
    (packets : List SensorDataPacket) (hne : packets ≠ [])
    (hv : ∀ q ∈ packets, q.is_valid = true) :
    ∃ rec, format_aggregated_data cfg packets = some rec
      ∧ rec.sample_count = packets.length
      ∧ rec.valid_count = packets.length
      ∧ rec.avg_temperature
          = (packets.map (fun q => q.temperature_celsius)).sum
            / (packets.length : ℚ)
      ∧ rec.avg_humidity
          = (packets.map (fun q => q.humidity_percent)).sum
            / (packets.length : ℚ)
      ∧ rec.avg_pressure
          = (packets.map (fun q => q.pressure_hpa)).sum / (packets.length : ℚ)
      ∧ rec.min_temperature ∈ packets.map (fun q => q.temperature_celsius)
      ∧ (∀ t ∈ packets.map (fun q => q.temperature_celsius),
          rec.min_temperature ≤ t)
      ∧ rec.max_temperature ∈ packets.map (fun q => q.temperature_celsius)
      ∧ (∀ t ∈ packets.map (fun q => q.temperature_celsius),
          t ≤ rec.max_temperature) := by
  match packets, hne with
  | p0 :: rest, _ =>
    have hfilter : (p0 :: rest).filter (fun p => p.is_valid) = p0 :: rest :=
      List.filter_eq_self.2 hv
    unfold format_aggregated_data
    simp only [hfilter, List.length_cons]
    rw [if_neg (Nat.succ_ne_zero rest.length)]
    refine ⟨_, rfl, rfl, rfl, rfl, rfl, rfl, ?_, ?_, ?_, ?_⟩
    · rcases foldl_min_mem ((p0 :: rest).map (fun q => q.temperature_celsius))
        p0.temperature_celsius with h | h
      · rw [h]
        exact List.mem_cons_self _ _
      · exact h
    · exact (foldl_min_le _ _).2
    · rcases foldl_max_mem ((p0 :: rest).map (fun q => q.temperature_celsius))
        p0.temperature_celsius with h | h
      · rw [h]
        exact List.mem_cons_self _ _
      · exact h
    · exact (foldl_max_ge _ _).2

/-- The per-sensor aggregation step, written as one decision on the
trailing window (an empty history has an empty window). -/
theorem aggregate_step_eq (cfg : RPi4GatewayConfig) (now : ℕ) (sid : String)
    (h : List SensorDataPacket) :
    aggregate_step cfg now (sid, h)
      = (if (h.filter
            (fun p => now - cfg.aggregation_window_seconds ≤ p.timestamp)).isEmpty
         then none
         else some (sid, format_aggregated_data cfg (h.filter
            (fun p => now - cfg.aggregation_window_seconds ≤ p.timestamp)))) := by
  unfold aggregate_step
  by_cases h1 : h.isEmpty
  · rw [if_pos h1]
    have h0 : h = [] := List.isEmpty_iff.1 h1
    subst h0
    simp
  · rw [if_neg h1]

/-- Sensors absent from the map contribute nothing to an aggregation
pass. -/
theorem aggregate_frame (cfg : RPi4GatewayConfig)
    (sensors : List (String × List SensorDataPacket)) (now : ℕ) (id : String)
    (hid : id ∉ sensors.map Prod.fst) :
    (aggregate_and_forward cfg sensors now).filter (fun e => e.1 == id)
      = [] := by
  induction sensors with
  | nil => rfl
  | cons hd rest ih =>
    obtain ⟨sid, h⟩ := hd
    simp only [List.map_cons, List.mem_cons] at hid
    push_neg at hid
    obtain ⟨hne, hrest⟩ := hid
    unfold aggregate_and_forward at ih ⊢
    by_cases hrec : (h.filter
        (fun p => now - cfg.aggregation_window_seconds ≤ p.timestamp)).isEmpty
    · rw [List.filterMap_cons_none (by rw [aggregate_step_eq, if_pos hrec])]
      exact ih hrest
    · rw [List.filterMap_cons_some
        (show aggregate_step cfg now (sid, h)
          = some (sid, format_aggregated_data cfg (h.filter
            (fun p => now - cfg.aggregation_window_seconds ≤ p.timestamp)))
         from by rw [aggregate_step_eq, if_neg hrec])]
      rw [List.filter_cons]
      have hdrop : ((sid,
          format_aggregated_data cfg (h.filter
            (fun p => now - cfg.aggregation_window_seconds ≤ p.timestamp))).1
          == id) = false := by
        simp only [beq_eq_false_iff_ne, ne_eq]
        exact fun hh => hne hh.symm
      rw [hdrop]
      simp only [Bool.false_eq_true, if_neg]
      exact ih hrest

/-- One aggregation pass emits, for a present sensor, exactly the
messages prescribed by its window: nothing when the trailing window is
empty, and one formatted message otherwise. -/
theorem aggregate_entry (cfg : RPi4GatewayConfig)
    (sensors : List (String × List SensorDataPacket)) (now : ℕ) (id : String)
    (history : List SensorDataPacket)
    (hkeys : (sensors.map Prod.fst).Nodup)
    (hs : lookupKV id sensors = some history) :
    (aggregate_and_forward cfg sensors now).filter (fun e => e.1 == id)
      = (if (history.filter
            (fun p => now - cfg.aggregation_window_seconds ≤ p.timestamp)).isEmpty
         then []
         else [(id, format_aggregated_data cfg (history.filter
            (fun p => now - cfg.aggregation_window_seconds ≤ p.timestamp)))]) := by
  induction sensors with
  | nil => simp [lookupKV] at hs
  | cons hd rest ih =>
    obtain ⟨sid, h⟩ := hd
    simp only [List.map_cons, List.nodup_cons] at hkeys
    obtain ⟨hnotin, hkeysRest⟩ := hkeys
    by_cases hid : id = sid
    · subst hid
      rw [lookupKV, if_pos rfl] at hs
      cases hs
      unfold aggregate_and_forward
      have hframe := aggregate_frame cfg rest now id hnotin
      unfold aggregate_and_forward at hframe
      by_cases hrec : (history.filter
          (fun p => now - cfg.aggregation_window_seconds ≤ p.timestamp)).isEmpty
      · rw [List.filterMap_cons_none (by rw [aggregate_step_eq, if_pos hrec]),
          hframe, if_pos hrec]
      · rw [List.filterMap_cons_some
          (show aggregate_step cfg now (id, history)
            = some (id, format_aggregated_data cfg (history.filter
              (fun p => now - cfg.aggregation_window_seconds ≤ p.timestamp)))
           from by rw [aggregate_step_eq, if_neg hrec])]
        rw [List.filter_cons]
        have hkeep : (((id, format_aggregated_data cfg (history.filter
            (fun p => now - cfg.aggregation_window_seconds ≤ p.timestamp)))).1
            == id) = true := by
          simp
        rw [hkeep, if_pos rfl, hframe, if_neg hrec]
    · have hsrest : lookupKV id rest = some history := by
        rw [lookupKV, if_neg hid] at hs
        exact hs
      unfold aggregate_and_forward
      have ihr := ih hkeysRest hsrest
      unfold aggregate_and_forward at ihr
      by_cases h2 : (h.filter
          (fun p => now - cfg.aggregation_window_seconds ≤ p.timestamp)).isEmpty
      · rw [List.filterMap_cons_none (by rw [aggregate_step_eq, if_pos h2])]
        exact ihr
      · rw [List.filterMap_cons_some
          (show aggregate_step cfg now (sid, h)
            = some (sid, format_aggregated_data cfg (h.filter
              (fun p => now - cfg.aggregation_window_seconds ≤ p.timestamp)))
           from by rw [aggregate_step_eq, if_neg h2])]
        rw [List.filter_cons]
        have hdrop : ((sid, format_aggregated_data cfg (h.filter
            (fun p => now - cfg.aggregation_window_seconds ≤ p.timestamp))).1
            == id) = false := by
          simp only [beq_eq_false_iff_ne, ne_eq]
          exact fun hh => hid hh.symm
        rw [hdrop]
        simp only [Bool.false_eq_true, if_neg]
        exact ihr

/-- Every packet a `pushEvict` insertion retains was already stored or is
the inserted one. -/
theorem pushEvict_subset {α : Type} (cap : ℕ) (l : List α) (x : α) :
    ∀ q ∈ pushEvict cap l x, q ∈ l ++ [x] := by
  intro q hq
  unfold pushEvict at hq
  split_ifs at hq
  · exact List.tail_subset _ hq
  · exact hq

/-- The history a state holds for a sensor after one processed packet. -/
theorem process_history_eq (cfg : RPi4GatewayConfig) (st : DPState)
    (p : SensorDataPacket) (now : ℕ) (id : String)
    (hval : ¬ p.is_valid = false) :
    (lookupKV id (process_packet_internal cfg st p now).1.sensor_history).getD []
      = if p.sensor_id = id
        then pushEvict cfg.max_sensor_history
          ((lookupKV p.sensor_id st.sensor_history).getD []) p
        else (lookupKV id st.sensor_history).getD [] := by
  unfold process_packet_internal
  rw [if_neg hval]
  show (lookupKV id (updKV p.sensor_id (pushEvict cfg.max_sensor_history
      ((lookupKV p.sensor_id st.sensor_history).getD []) p)
      st.sensor_history)).getD [] = _
  by_cases hid : p.sensor_id = id
  · subst hid
    rw [if_pos rfl, lookupKV_updKV_self, Option.getD_some]
  · rw [if_neg hid, lookupKV_updKV_ne _ _ (fun hh => hid hh.symm)]

/-- **C9**: per-sensor histories only ever hold valid packets (the
processor drops invalid ones before storage), and on an aggregation pass
each sensor's history is filtered to the trailing window: a sensor with no
samples in the window contributes nothing, while a sensor with samples in
the window (all valid) contributes exactly one aggregated record whose
sample and valid counts, temperature/humidity/pressure averages and
attained temperature min/max range over exactly the window's samples. -/
theorem aggregation_per_sensor (cfg : RPi4GatewayConfig)
    (sensors : List (String × List SensorDataPacket)) (now : ℕ) (id : String)
    (history : List SensorDataPacket)
    (hkeys : (sensors.map Prod.fst).Nodup)
    (hs : lookupKV id sensors = some history)
    (hvalid : ∀ q ∈ history, q.is_valid = true) :
    (∀ cfg' st' p' now' id',
      (∀ q ∈ (lookupKV id' st'.sensor_history).getD [], q.is_valid = true) →
      ∀ q ∈ (lookupKV id'
          (process_packet_internal cfg' st' p' now').1.sensor_history).getD [],
        q.is_valid = true)
    ∧ (history.filter
        (fun p => now - cfg.aggregation_window_seconds ≤ p.timestamp) = [] →
      (aggregate_and_forward cfg sensors now).filter (fun e => e.1 == id) = [])
    ∧ (∀ w, history.filter
        (fun p => now - cfg.aggregation_window_seconds ≤ p.timestamp) = w →
        w ≠ [] →
      ∃ rec, (aggregate_and_forward cfg sensors now).filter
          (fun e => e.1 == id) = [(id, some rec)]
        ∧ rec.sample_count = w.length
        ∧ rec.valid_count = w.length
        ∧ rec.avg_temperature
            = (w.map (fun q => q.temperature_celsius)).sum / (w.length : ℚ)
        ∧ rec.avg_humidity
            = (w.map (fun q => q.humidity_percent)).sum / (w.length : ℚ)
        ∧ rec.avg_pressure
            = (w.map (fun q => q.pressure_hpa)).sum / (w.length : ℚ)
        ∧ rec.min_temperature ∈ w.map (fun q => q.temperature_celsius)
        ∧ (∀ t ∈ w.map (fun q => q.temperature_celsius),
            rec.min_temperature ≤ t)
        ∧ rec.max_temperature ∈ w.map (fun q => q.temperature_celsius)
        ∧ (∀ t ∈ w.map (fun q => q.temperature_celsius),
            t ≤ rec.max_temperature)) := by
  refine ⟨?_, ?_, ?_⟩
  · intro cfg' st' p' now' id' hv q hq
    by_cases hval : p'.is_valid = false
    · unfold process_packet_internal at hq
      rw [if_pos hval] at hq
      exact hv q hq
    · rw [process_history_eq cfg' st' p' now' id' hval] at hq
      by_cases hid : p'.sensor_id = id'
      · rw [if_pos hid] at hq
        rcases List.mem_append.1 (pushEvict_subset _ _ _ q hq) with hmem | hmem
        · rw [hid] at hmem
          exact hv q hmem
        · have hq' : q = p' := List.mem_singleton.1 hmem
          subst hq'
          revert hval
          cases q.is_valid <;> simp
      · rw [if_neg hid] at hq
        exact hv q hq
  · intro hw
    rw [aggregate_entry cfg sensors now id history hkeys hs, hw]
    simp
  · intro w hwEq hwNe
    have hwv : ∀ q ∈ w, q.is_valid = true := by
      intro q hqw
      rw [← hwEq] at hqw
      exact hvalid q (List.mem_of_mem_filter hqw)
    obtain ⟨rec, hfmt, h1, h2, h3, h4, h5, h6, h7, h8, h9⟩ :=
      format_all_valid cfg w hwNe hwv
    refine ⟨rec, ?_, h1, h2, h3, h4, h5, h6, h7, h8, h9⟩
    rw [aggregate_entry cfg sensors now id history hkeys hs, hwEq,
      if_neg (by rw [List.isEmpty_iff]; exact fun hh => hwNe hh), hfmt]

/-- Witness for C9: the 10-reading history yields exactly one aggregated
record with `sample_count = 10` and average temperature `22`. -/
theorem aggregation_per_sensor_witness :
    ∃ rec, (aggregate_and_forward {} [("s1", aggHist)] 60).filter
        (fun e => e.1 == "s1") = [("s1", some rec)]
      ∧ rec.sample_count = 10
      ∧ rec.valid_count = 10
      ∧ rec.avg_temperature = 22 := by
  obtain ⟨_, _, hwin⟩ := aggregation_per_sensor {} [("s1", aggHist)] 60 "s1"
    aggHist (by decide) (by decide) (by decide)
  obtain ⟨rec, hfilter, h1, h2, h3, _⟩ := hwin aggHist (by decide) (by decide)
  refine ⟨rec, hfilter, ?_, ?_, ?_⟩
  · rw [h1]
    decide
  · rw [h2]
    decide
  · rw [h3]
    norm_num [aggHist, aggPacket]

end ThermalSpec
